import Mathlib

/-!
Shallow embedding of the Kubernetes client wrapper
(`automation/k8s_client.py`) of the ephemeral-environment platform,
together with proofs of the specified properties of its
create-or-update reconciliation logic.

The cluster SDK (`kubernetes.client`, `kubernetes.utils`) is modelled as
an environment of call outcomes; each embedded operation returns its
result together with the list of cluster API calls it issued, in order.
-/

namespace EphemeralEnv

/-! ## String primitives

The embedding works on `List Char` (converted with `String.toList` at
each operation's boundary) with structurally recursive helpers, so
every definition evaluates by kernel reduction. -/

/-- `pat` is a prefix of `cs`. -/
def isPrefOf : List Char → List Char → Bool
  | [], _ => true
  | _ :: _, [] => false
  | a :: as, b :: bs => a == b && isPrefOf as bs

/-- Python's `pat in s` substring test, on character lists. -/
def containsSubL (pat : List Char) : List Char → Bool
  | [] => isPrefOf pat []
  | c :: rest => isPrefOf pat (c :: rest) || containsSubL pat rest

/-- Python's `pat in s` substring test. -/
def containsSub (s pat : String) : Bool :=
  containsSubL pat.toList s.toList

/-- Split on a single-character separator (Python `s.split(sep)` with a
one-character separator); the accumulator holds the current segment
reversed. -/
def splitCharAux (sep : Char) : List Char → List Char → List (List Char)
  | [], acc => [acc.reverse]
  | c :: rest, acc =>
    if c == sep then acc.reverse :: splitCharAux sep rest []
    else splitCharAux sep rest (c :: acc)

/-- Python `s.split(sep)` for a one-character separator. -/
def splitChar (sep : Char) (cs : List Char) : List (List Char) :=
  splitCharAux sep cs []

/-- Python `s.split(sep, 1)` for a one-character separator: `none` when
the separator does not occur. -/
def split1 (sep : Char) (cs : List Char) : Option (List Char × List Char) :=
  let pre := cs.takeWhile (fun c => c != sep)
  if pre.length = cs.length then none
  else some (pre, cs.drop (pre.length + 1))

/-- Python `s.rsplit(sep, 1)` for a one-character separator: `none`
when the separator does not occur. -/
def rsplit1 (sep : Char) (cs : List Char) : Option (List Char × List Char) :=
  let r := cs.reverse
  let tailRev := r.takeWhile (fun c => c != sep)
  if tailRev.length = r.length then none
  else some ((r.drop (tailRev.length + 1)).reverse, tailRev.reverse)

/-! ## Character classes and regex matchers used by the validators -/

/-- `[a-z0-9]` — lowercase ASCII alphanumeric. -/
def isLowerAlnum (c : Char) : Bool :=
  c.isLower || c.isDigit

/-- Python's `$` anchor also matches just before a single trailing
newline; `re.match(r"^X$", s)` succeeds iff `X` matches `s` with at
most one trailing newline removed. -/
def stripTrailingNewline (cs : List Char) : List Char :=
  if cs.getLast? == some '\n' then cs.dropLast else cs

/-- Matcher for the k8s name pattern `^[a-z0-9]([-a-z0-9]*[a-z0-9])?$`
on the character list. -/
def k8sNameCore : List Char → Bool
  | [] => false
  | [c] => isLowerAlnum c
  | c :: rest =>
    isLowerAlnum c &&
    (match rest.getLast? with
     | some l => isLowerAlnum l
     | none => false) &&
    rest.dropLast.all (fun d => isLowerAlnum d || d == '-')

/-- `re.match(r"^[a-z0-9]([-a-z0-9]*[a-z0-9])?$", s)` as a Bool. -/
def matchK8sName (s : String) : Bool :=
  k8sNameCore (stripTrailingNewline s.toList)

/-- `_validate_k8s_name`: empty names and names longer than 63
characters are rejected, then the name must match the k8s name regex.
The source returns `(is_valid, error_message)`; we keep the Bool. -/
def validate_k8s_name (name : String) : Bool :=
  if name.toList = [] then false
  else if name.toList.length > 63 then false
  else matchK8sName name

/-- `_validate_port`: the port must be an integer in `1..65535`
(the integer-ness is captured by the `Int` type). -/
def validate_port (port : Int) : Bool :=
  1 ≤ port && port ≤ 65535

/-- `[a-zA-Z0-9_]` — first character class of the tag pattern. -/
def isTagStart (c : Char) : Bool :=
  c.isAlpha || c.isDigit || c == '_'

/-- `[a-zA-Z0-9._-]` — remaining character class of the tag pattern. -/
def isTagChar (c : Char) : Bool :=
  c.isAlpha || c.isDigit || c == '.' || c == '_' || c == '-'

/-- `re.match(r"^[a-zA-Z0-9_][a-zA-Z0-9._-]{0,127}$", s)` as a Bool,
on the character list. -/
def tagMatch (cs : List Char) : Bool :=
  match stripTrailingNewline cs with
  | [] => false
  | c :: rest => isTagStart c && rest.all isTagChar && rest.length ≤ 127

/-- `.` `_` `-` — the separator characters of the repository-name
pattern. -/
def isSepChar (c : Char) : Bool :=
  c == '.' || c == '_' || c == '-'

/-- A maximal separator run between alphanumeric blocks must be one of
the alternatives `(\.|_|__|-+)`. -/
def sepOk (run : List Char) : Bool :=
  run == ['.'] || run == ['_'] || run == ['_', '_'] ||
    (run ≠ [] && run.all (fun c => c == '-'))

/-- State machine for one path component of the repository-name pattern
`[a-z0-9]+((\.|_|__|-+)[a-z0-9]+)*`: the accumulator holds the current
separator run (`none` when the previous character was alphanumeric). -/
def compStep : List Char → Option (List Char) → Bool
  | [], none => true
  | [], some _ => false
  | c :: rest, none =>
    if isLowerAlnum c then compStep rest none
    else if isSepChar c then compStep rest (some [c])
    else false
  | c :: rest, some run =>
    if isLowerAlnum c then sepOk run && compStep rest none
    else if isSepChar c then compStep rest (some (run ++ [c]))
    else false

/-- One path component: nonempty, starts with `[a-z0-9]`, and its
separator runs are each a single allowed separator token. -/
def compMatch (cs : List Char) : Bool :=
  match cs with
  | [] => false
  | c :: _ => isLowerAlnum c && compStep cs none

/-- The full repository-name pattern
`^[a-z0-9]+((\.|_|__|-+)[a-z0-9]+)*(\/[a-z0-9]+((\.|_|__|-+)[a-z0-9]+)*)*$`:
slash-separated components, each matching `compMatch`, on the
character list. -/
def nameMatch (cs : List Char) : Bool :=
  (splitChar '/' (stripTrailingNewline cs)).all compMatch

/-- `_validate_image_name`: nonempty, must contain a tag separator
`:`; `rsplit(":", 1)` yields name part and tag; the tag must match the
tag pattern; if the name part contains `/` only the portion after the
first `/` is validated against the repository-name pattern (the
registry host is not validated), otherwise the whole name part is; and
the full reference must be at most 255 characters. -/
def validate_image_name (image : String) : Bool :=
  if image.toList = [] then false
  else if !(image.toList.contains ':') then false
  else
    match rsplit1 ':' image.toList with
    | none => false
    | some (name_part, tag) =>
      if !(tagMatch tag) then false
      else
        let nameOk :=
          if name_part.contains '/' then
            match split1 '/' name_part with
            | some (_registry_host, repo_path) => nameMatch repo_path
            | none => false
          else
            nameMatch name_part
        if !nameOk then false
        else if image.toList.length > 255 then false
        else true

/-! ## Manifest data model

A parsed manifest is modelled with the fields the client reads or
writes: `apiVersion`, `kind`, `metadata.name`, `metadata.namespace`,
`metadata.resourceVersion`; the rest of the document (notably `spec`)
is an opaque payload. `Option` records presence of the key. -/

structure Metadata where
  name : Option String
  nspace : Option String
  resourceVersion : Option String
deriving DecidableEq

structure Manifest where
  apiVersion : Option String
  kind : Option String
  metadata : Option Metadata
  spec : String
deriving DecidableEq

/-- `manifest.get("apiVersion", "")`. -/
def Manifest.apiVersionD (m : Manifest) : String :=
  m.apiVersion.getD ""

/-- `manifest.get("kind", "Resource")`. -/
def Manifest.kindD (m : Manifest) : String :=
  m.kind.getD "Resource"

/-- `manifest.get("metadata", \x7b\x7d).get("name", "unknown")`. -/
def Manifest.nameD (m : Manifest) : String :=
  match m.metadata with
  | some md => md.name.getD "unknown"
  | none => "unknown"

/-- The `metadata.namespace` field actually present in the manifest. -/
def Manifest.nspaceOf (m : Manifest) : Option String :=
  m.metadata.bind (fun md => md.nspace)

/-- `manifest["metadata"]["namespace"] = namespace` after ensuring
`metadata` exists (`_parse_yaml_manifest` lines 186-188). -/
def setNamespace (m : Manifest) (ns : String) : Manifest :=
  match m.metadata with
  | some md => { m with metadata := some { md with nspace := some ns } }
  | none => { m with metadata := some ⟨none, some ns, none⟩ }

/-- `manifest["metadata"]["resourceVersion"] = rv`; the flow guarantees
`metadata` is present when this runs (a missing key would raise before
this assignment, which the caller models separately). -/
def setResourceVersion (m : Manifest) (rv : String) : Manifest :=
  match m.metadata with
  | some md => { m with metadata := some { md with resourceVersion := some rv } }
  | none => m

/-- `api_version.split("/")` unpacked into exactly two parts; any other
shape raises `ValueError`, modelled as `none`. -/
def splitApiVersion (s : String) : Option (String × String) :=
  match splitChar '/' s.toList with
  | [g, v] => some (String.mk g, String.mk v)
  | _ => none

/-- `kind.lower() + "s"` — the pluralization used for custom-resource
addressing. -/
def pluralOf (kind : String) : String :=
  String.mk (kind.toList.map Char.toLower) ++ "s"

/-- `_is_traefik_crd`: substring test of the `apiVersion` against the
two known custom-resource API domains. -/
def is_traefik_crd (m : Manifest) : Bool :=
  containsSub m.apiVersionD "traefik.io" ||
    containsSub m.apiVersionD "traefik.containo.us"

/-! ### Field-preservation lemmas for the metadata writers -/

theorem setNamespace_apiVersionD (m : Manifest) (ns : String) :
    (setNamespace m ns).apiVersionD = m.apiVersionD := by
  unfold setNamespace Manifest.apiVersionD
  cases m.metadata <;> rfl

theorem setNamespace_kindD (m : Manifest) (ns : String) :
    (setNamespace m ns).kindD = m.kindD := by
  unfold setNamespace Manifest.kindD
  cases m.metadata <;> rfl

theorem setNamespace_spec (m : Manifest) (ns : String) :
    (setNamespace m ns).spec = m.spec := by
  unfold setNamespace
  cases m.metadata <;> rfl

theorem setNamespace_nameD (m : Manifest) (ns : String) :
    (setNamespace m ns).nameD = m.nameD := by
  unfold setNamespace Manifest.nameD
  cases m.metadata <;> rfl

theorem setNamespace_nspaceOf (m : Manifest) (ns : String) :
    (setNamespace m ns).nspaceOf = some ns := by
  unfold setNamespace Manifest.nspaceOf
  cases m.metadata <;> rfl

theorem setNamespace_metadata_isSome (m : Manifest) (ns : String) :
    (setNamespace m ns).metadata.isSome = true := by
  unfold setNamespace
  cases m.metadata <;> rfl

theorem setResourceVersion_nspaceOf (m : Manifest) (rv : String) :
    (setResourceVersion m rv).nspaceOf = m.nspaceOf := by
  cases hm : m.metadata <;>
    simp [setResourceVersion, Manifest.nspaceOf, hm]

theorem setResourceVersion_spec (m : Manifest) (rv : String) :
    (setResourceVersion m rv).spec = m.spec := by
  cases hm : m.metadata <;> simp [setResourceVersion, hm]

theorem setResourceVersion_kindD (m : Manifest) (rv : String) :
    (setResourceVersion m rv).kindD = m.kindD := by
  cases hm : m.metadata <;>
    simp [setResourceVersion, Manifest.kindD, hm]

theorem setResourceVersion_nameD (m : Manifest) (rv : String) :
    (setResourceVersion m rv).nameD = m.nameD := by
  cases hm : m.metadata <;>
    simp [setResourceVersion, Manifest.nameD, hm]

theorem is_traefik_crd_setNamespace (m : Manifest) (ns : String) :
    is_traefik_crd (setNamespace m ns) = is_traefik_crd m := by
  unfold is_traefik_crd
  rw [setNamespace_apiVersionD]

/-! ## Cluster API calls, outcomes and the environment

Each cluster call's possible results, as seen by the wrapper code:
success, `ApiException(status)`, `FailToCreateError(msg)` (only
`utils.create_from_dict` raises it), or any other exception. -/

/-- Outcomes of `utils.create_from_dict`. -/
inductive CreateOutcome where
  | ok
  | failCreate (msg : String)
  | apiErr (status : Nat)
  | otherErr
deriving DecidableEq

/-- Outcomes of the patch calls. -/
inductive PatchOutcome where
  | ok
  | apiErr (status : Nat)
deriving DecidableEq

/-- Outcomes of `get_namespaced_custom_object`: success carries the
fetched object's `metadata.resourceVersion`; `err` is any raised
exception (caught immediately or by the caller's generic handler —
the result and call trace are the same either way). -/
inductive GetOutcome where
  | ok (resourceVersion : String)
  | err
deriving DecidableEq

/-- Outcomes of `create_namespaced_custom_object`. -/
inductive CustomCreateOutcome where
  | ok
  | apiErr (status : Nat)
  | otherErr
deriving DecidableEq

/-- A cluster API call, with the arguments the wrapper passes. -/
inductive Call where
  | createFromDict (body : Manifest)
  | patchDeployment (name ns : String) (body : Manifest)
  | patchService (name ns : String) (body : Manifest)
  | patchIngress (name ns : String) (body : Manifest)
  | createCustomObject (group version ns plural : String) (body : Manifest)
  | getCustomObject (group version ns plural name : String)
  | patchCustomObject (group version ns plural name : String) (body : Manifest)
deriving DecidableEq

/-- The manifest body a call sends to the cluster, if any. -/
def Call.body : Call → Option Manifest
  | .createFromDict b => some b
  | .patchDeployment _ _ b => some b
  | .patchService _ _ b => some b
  | .patchIngress _ _ b => some b
  | .createCustomObject _ _ _ _ b => some b
  | .getCustomObject _ _ _ _ _ => none
  | .patchCustomObject _ _ _ _ _ b => some b

/-- A creation attempt (standard or custom). -/
def Call.isCreate : Call → Bool
  | .createFromDict _ => true
  | .createCustomObject _ _ _ _ _ => true
  | _ => false

/-- A mutating update (patch) call. -/
def Call.isUpdate : Call → Bool
  | .patchDeployment _ _ _ => true
  | .patchService _ _ _ => true
  | .patchIngress _ _ _ => true
  | .patchCustomObject _ _ _ _ _ _ => true
  | _ => false

/-- A prior-state fetch. -/
def Call.isGet : Call → Bool
  | .getCustomObject _ _ _ _ _ => true
  | _ => false

/-- The cluster SDK and the YAML parser, as outcome oracles. `parse`
models `yaml.safe_load` followed by the mapping check: `none` covers
both a parse error and a non-mapping document (where the namespace
injection raises and `_parse_yaml_manifest` returns `None`). -/
structure Env where
  parse : String → Option Manifest
  create_from_dict : Manifest → CreateOutcome
  patch_namespaced_deployment : String → String → Manifest → PatchOutcome
  patch_namespaced_service : String → String → Manifest → PatchOutcome
  patch_namespaced_ingress : String → String → Manifest → PatchOutcome
  create_namespaced_custom_object :
    String → String → String → String → Manifest → CustomCreateOutcome
  get_namespaced_custom_object :
    String → String → String → String → String → GetOutcome
  patch_namespaced_custom_object :
    String → String → String → String → String → Manifest → PatchOutcome

/-! ## The embedded client operations

Each returns its Python return value together with the ordered list of
cluster calls issued. -/

/-- `_parse_yaml_manifest`: parse, then force `metadata.namespace` to
the target namespace. -/
def parse_yaml_manifest (env : Env) (yaml_content ns : String) : Option Manifest :=
  match env.parse yaml_content with
  | none => none
  | some m => some (setNamespace m ns)

/-- `_update_standard_resource`: dispatch on the kind string to the
kind-specific patch call; unknown kinds log a warning and return
`False` without any call. -/
def update_standard_resource (env : Env) (manifest : Manifest)
    (ns kind name : String) : Bool × List Call :=
  if kind = "Deployment" then
    match env.patch_namespaced_deployment name ns manifest with
    | .ok => (true, [.patchDeployment name ns manifest])
    | .apiErr _ => (false, [.patchDeployment name ns manifest])
  else if kind = "Service" then
    match env.patch_namespaced_service name ns manifest with
    | .ok => (true, [.patchService name ns manifest])
    | .apiErr _ => (false, [.patchService name ns manifest])
  else if kind = "Ingress" then
    match env.patch_namespaced_ingress name ns manifest with
    | .ok => (true, [.patchIngress name ns manifest])
    | .apiErr _ => (false, [.patchIngress name ns manifest])
  else
    (false, [])

/-- `_update_traefik_crd`: fetch the current object, copy its
`resourceVersion` into the manifest, then patch with that manifest.
A failed fetch (or a manifest without a `metadata` mapping, where the
assignment raises) stops before any patch. -/
def update_traefik_crd (env : Env) (group version ns plural name : String)
    (manifest : Manifest) : Bool × List Call :=
  match env.get_namespaced_custom_object group version ns plural name with
  | .err => (false, [.getCustomObject group version ns plural name])
  | .ok rv =>
    match manifest.metadata with
    | none => (false, [.getCustomObject group version ns plural name])
    | some _ =>
      let m' := setResourceVersion manifest rv
      match env.patch_namespaced_custom_object group version ns plural name m' with
      | .ok =>
        (true, [.getCustomObject group version ns plural name,
                .patchCustomObject group version ns plural name m'])
      | .apiErr _ =>
        (false, [.getCustomObject group version ns plural name,
                 .patchCustomObject group version ns plural name m'])

/-- `_apply_traefik_crd`: split the `apiVersion` into group/version
(a bad split raises and is caught, with no call made), derive the
plural by lowercasing the kind and appending "s", try to create, and
on a 409 conflict fall back to the update routine. -/
def apply_traefik_crd (env : Env) (manifest : Manifest) (ns : String) :
    Bool × List Call :=
  let kind := manifest.kindD
  let resource_name := manifest.nameD
  match splitApiVersion manifest.apiVersionD with
  | none => (false, [])
  | some (group, version) =>
    let plural := pluralOf kind
    match env.create_namespaced_custom_object group version ns plural manifest with
    | .ok => (true, [.createCustomObject group version ns plural manifest])
    | .apiErr s =>
      if s = 409 then
        let upd := update_traefik_crd env group version ns plural resource_name manifest
        (upd.1, .createCustomObject group version ns plural manifest :: upd.2)
      else
        (false, [.createCustomObject group version ns plural manifest])
    | .otherErr => (false, [.createCustomObject group version ns plural manifest])

/-- `_apply_standard_resource`: try to create; a `FailToCreateError`
whose message mentions "AlreadyExists" or "Conflict", or an
`ApiException` with status 409, routes to the kind dispatch; every
other failure is terminal. -/
def apply_standard_resource (env : Env) (manifest : Manifest) (ns : String) :
    Bool × List Call :=
  let kind := manifest.kindD
  let resource_name := manifest.nameD
  match env.create_from_dict manifest with
  | .ok => (true, [.createFromDict manifest])
  | .failCreate msg =>
    if containsSub msg "AlreadyExists" || containsSub msg "Conflict" then
      let upd := update_standard_resource env manifest ns kind resource_name
      (upd.1, .createFromDict manifest :: upd.2)
    else
      (false, [.createFromDict manifest])
  | .apiErr s =>
    if s = 409 then
      let upd := update_standard_resource env manifest ns kind resource_name
      (upd.1, .createFromDict manifest :: upd.2)
    else
      (false, [.createFromDict manifest])
  | .otherErr => (false, [.createFromDict manifest])

/-- `_apply_yaml`: parse (forcing the namespace), then route on the
custom-resource check. -/
def apply_yaml (env : Env) (yaml_content ns : String) : Bool × List Call :=
  match parse_yaml_manifest env yaml_content ns with
  | none => (false, [])
  | some m =>
    if is_traefik_crd m then apply_traefik_crd env m ns
    else apply_standard_resource env m ns

/-! ## Namespace operations

The namespace calls (`create_namespace`, `delete_namespace`,
`read_namespace`) raise `ApiException` on API-level failure; the result
type `Except Nat Bool` records an exception that escapes the wrapper as
`.error status`. -/

/-- Outcome of one underlying namespace API call. -/
inductive NsOutcome where
  | ok
  | apiErr (status : Nat)
deriving DecidableEq

/-- `create_namespace`: validate the name (no call on failure), then
create; a 409 is logged as a warning and reported as success. -/
def create_namespace (name : String) (outcome : NsOutcome) : Except Nat Bool :=
  if !(validate_k8s_name name) then .ok false
  else
    match outcome with
    | .ok => .ok true
    | .apiErr s => if s = 409 then .ok true else .ok false

/-- `delete_namespace`: validate the name, then delete; a 404 is logged
as a warning and any other `ApiException` as an error, but both fall
through to the same `return False`. -/
def delete_namespace (name : String) (outcome : NsOutcome) : Except Nat Bool :=
  if !(validate_k8s_name name) then .ok false
  else
    match outcome with
    | .ok => .ok true
    | .apiErr _ => .ok false

/-- `namespace_exists`: validate the name, then read; a 404 yields
`False`, and any other `ApiException` is re-raised. -/
def namespace_exists (name : String) (outcome : NsOutcome) : Except Nat Bool :=
  if !(validate_k8s_name name) then .ok false
  else
    match outcome with
    | .ok => .ok true
    | .apiErr s => if s = 404 then .ok false else .error s

/-! ## `create_deployment`

Template rendering happens strictly after input validation; the
renderer raises `TemplateError` on failure, which `create_deployment`
does not catch. An event trace separates the render invocation from
cluster calls. -/

/-- Outcome of `render_template`. -/
inductive RenderOutcome where
  | ok (content : String)
  | raiseTemplateError
deriving DecidableEq

/-- An observable side effect of `create_deployment`. -/
inductive Event where
  | render (template : String)
  | cluster (c : Call)
deriving DecidableEq

/-- `create_deployment`: validate name, namespace, image and port in
order (returning `False` with no side effect on the first failure),
then render the deployment template and apply the result. An escaped
`TemplateError` is `.error ()`; a falsy rendered string returns
`False`. -/
def create_deployment (env : Env) (name ns image : String) (port : Int)
    (rendered : RenderOutcome) : Except Unit Bool × List Event :=
  if !(validate_k8s_name name) then (.ok false, [])
  else if !(validate_k8s_name ns) then (.ok false, [])
  else if !(validate_image_name image) then (.ok false, [])
  else if !(validate_port port) then (.ok false, [])
  else
    match rendered with
    | .raiseTemplateError => (.error (), [.render "deployment.yaml.j2"])
    | .ok y =>
      if y = "" then (.ok false, [.render "deployment.yaml.j2"])
      else
        let out := apply_yaml env y ns
        (.ok out.1, .render "deployment.yaml.j2" :: out.2.map .cluster)

/-! ## An operational cluster model

To state idempotence (a property of the algorithm against a
well-behaved cluster) we interpret the calls against an explicit store:
a resource is addressed by a key derived the same way the API derives
it, creation fails with 409 exactly when the key is present, patching
succeeds exactly when it is present, and the store keeps the body last
written together with a `resourceVersion` token. -/

/-- A live cluster object: its stored body and its version token. -/
structure Stored where
  body : Manifest
  rv : String
deriving DecidableEq

/-- Resource identity: a kind tag (the kind string for standard
resources, `"custom/" ++ plural` for custom objects), the namespace,
and the name. -/
abbrev ResKey := String × String × String

/-- The cluster store. -/
abbrev Cluster := ResKey → Option Stored

/-- Identity of the resource a standard create targets, as the API
derives it from the submitted body. -/
def keyStd (m : Manifest) : ResKey :=
  (m.kindD, m.nspaceOf.getD "", m.nameD)

/-- Identity of a custom object. -/
def keyCustom (plural ns name : String) : ResKey :=
  ("custom/" ++ plural, ns, name)

/-- Point update of the store. -/
def Cluster.set (c : Cluster) (k : ResKey) (v : Option Stored) : Cluster :=
  fun k' => if k' = k then v else c k'

/-- The environment a cluster snapshot presents to the client: creates
conflict iff the key is live, patches require the key to be live, the
fetch returns the stored version token. -/
def envOf (c : Cluster) (parse : String → Option Manifest) : Env where
  parse := parse
  create_from_dict := fun m =>
    if (c (keyStd m)).isSome then .apiErr 409 else .ok
  patch_namespaced_deployment := fun name ns _ =>
    if (c ("Deployment", ns, name)).isSome then .ok else .apiErr 404
  patch_namespaced_service := fun name ns _ =>
    if (c ("Service", ns, name)).isSome then .ok else .apiErr 404
  patch_namespaced_ingress := fun name ns _ =>
    if (c ("Ingress", ns, name)).isSome then .ok else .apiErr 404
  create_namespaced_custom_object := fun _ _ ns plural m =>
    if (c (keyCustom plural ns m.nameD)).isSome then .apiErr 409 else .ok
  get_namespaced_custom_object := fun _ _ ns plural name =>
    match c (keyCustom plural ns name) with
    | some st => .ok st.rv
    | none => .err
  patch_namespaced_custom_object := fun _ _ ns plural name _ =>
    if (c (keyCustom plural ns name)).isSome then .ok else .apiErr 404

/-- State effect of one call: a successful create stores the body with
a fresh token, a successful patch replaces the stored body, a fetch
changes nothing. -/
def execCall (c : Cluster) : Call → Cluster
  | .createFromDict m =>
    if (c (keyStd m)).isSome then c else c.set (keyStd m) (some ⟨m, "1"⟩)
  | .patchDeployment name ns m =>
    match c ("Deployment", ns, name) with
    | some st => c.set ("Deployment", ns, name) (some ⟨m, st.rv⟩)
    | none => c
  | .patchService name ns m =>
    match c ("Service", ns, name) with
    | some st => c.set ("Service", ns, name) (some ⟨m, st.rv⟩)
    | none => c
  | .patchIngress name ns m =>
    match c ("Ingress", ns, name) with
    | some st => c.set ("Ingress", ns, name) (some ⟨m, st.rv⟩)
    | none => c
  | .createCustomObject _ _ ns plural m =>
    if (c (keyCustom plural ns m.nameD)).isSome then c
    else c.set (keyCustom plural ns m.nameD) (some ⟨m, "1"⟩)
  | .getCustomObject _ _ _ _ _ => c
  | .patchCustomObject _ _ ns plural name m =>
    match c (keyCustom plural ns name) with
    | some st => c.set (keyCustom plural ns name) (some ⟨m, st.rv⟩)
    | none => c

/-- State effect of a call trace, in order. -/
def execTrace (c : Cluster) (tr : List Call) : Cluster :=
  tr.foldl execCall c

/-- One `_apply_yaml` invocation against a live cluster: the result and
the next cluster state. -/
def applyStep (parse : String → Option Manifest) (c : Cluster)
    (yaml ns : String) : Bool × Cluster :=
  let out := apply_yaml (envOf c parse) yaml ns
  (out.1, execTrace c out.2)

/-- The empty cluster. -/
def emptyCluster : Cluster := fun _ => none

/-! ## Concrete fixtures used by the witnesses -/

/-- A benign environment: parsing fails, every call succeeds. -/
def envNull : Env where
  parse := fun _ => none
  create_from_dict := fun _ => .ok
  patch_namespaced_deployment := fun _ _ _ => .ok
  patch_namespaced_service := fun _ _ _ => .ok
  patch_namespaced_ingress := fun _ _ _ => .ok
  create_namespaced_custom_object := fun _ _ _ _ _ => .ok
  get_namespaced_custom_object := fun _ _ _ _ _ => .err
  patch_namespaced_custom_object := fun _ _ _ _ _ _ => .ok

/-- A deployment manifest as rendered by the deployment template. -/
def mDeploy : Manifest :=
  { apiVersion := some "apps/v1"
    kind := some "Deployment"
    metadata := some { name := some "test-app", nspace := none, resourceVersion := none }
    spec := "deploy-spec" }

/-- A middleware manifest carrying the non-allow-listed custom API
group named by the spec's concrete scenario. -/
def mCustomIo : Manifest :=
  { apiVersion := some "custom.io/v1alpha1"
    kind := some "Middleware"
    metadata := some { name := some "test-middleware", nspace := none, resourceVersion := none }
    spec := "mw-spec" }

/-- The same middleware manifest with the API group the code actually
allow-lists. -/
def mTraefikMw : Manifest :=
  { apiVersion := some "traefik.io/v1alpha1"
    kind := some "Middleware"
    metadata := some { name := some "test-middleware", nspace := none, resourceVersion := none }
    spec := "mw-spec" }

/-! ## C1 — standard-resource update dispatch -/

/-- C1: for kinds Deployment, Service and Ingress the standard update
dispatch issues exactly the corresponding kind-specific patch call and
no other; for any other kind it returns `false` without issuing any
call; in every case at most one call is issued. -/
theorem update_dispatch_exact (env : Env) (m : Manifest) (ns kind name : String) :
    (kind = "Deployment" →
      (update_standard_resource env m ns kind name).2 = [.patchDeployment name ns m]) ∧
    (kind = "Service" →
      (update_standard_resource env m ns kind name).2 = [.patchService name ns m]) ∧
    (kind = "Ingress" →
      (update_standard_resource env m ns kind name).2 = [.patchIngress name ns m]) ∧
    (kind ≠ "Deployment" → kind ≠ "Service" → kind ≠ "Ingress" →
      update_standard_resource env m ns kind name = (false, [])) ∧
    (update_standard_resource env m ns kind name).2.length ≤ 1 := by
  unfold update_standard_resource
  by_cases hd : kind = "Deployment"
  · subst hd
    simp only [if_pos rfl]
    cases env.patch_namespaced_deployment name ns m <;> simp
  · by_cases hs : kind = "Service"
    · subst hs
      simp only [if_neg hd, if_pos rfl]
      cases env.patch_namespaced_service name ns m <;> simp [hd]
    · by_cases hi : kind = "Ingress"
      · subst hi
        simp only [if_neg hd, if_neg hs, if_pos rfl]
        cases env.patch_namespaced_ingress name ns m <;> simp [hd, hs]
      · simp [hd, hs, hi]

/-- Witness for C1 at concrete inputs: a Deployment kind issues exactly
the deployment patch, and a ConfigMap kind issues nothing and fails. -/
theorem update_dispatch_exact_witness :
    (update_standard_resource envNull mDeploy "test-ns" "Deployment" "test-app").2
      = [.patchDeployment "test-app" "test-ns" mDeploy] ∧
    update_standard_resource envNull mDeploy "test-ns" "ConfigMap" "test-app"
      = (false, []) :=
  ⟨(update_dispatch_exact envNull mDeploy "test-ns" "Deployment" "test-app").1 rfl,
   (update_dispatch_exact envNull mDeploy "test-ns" "ConfigMap" "test-app").2.2.2.1
     (by decide) (by decide) (by decide)⟩

/-! ## C7 — namespace creation absorbs 409 -/

/-- C7: for a valid namespace name, a 409 (already exists) from the
cluster is reported to the caller as success. -/
theorem create_namespace_conflict_is_success (name : String)
    (h : validate_k8s_name name = true) :
    create_namespace name (.apiErr 409) = .ok true := by
  simp [create_namespace, h]

/-- Witness for C7 at the concrete namespace `pr-123`. -/
theorem create_namespace_conflict_is_success_witness :
    validate_k8s_name "pr-123" = true ∧
    create_namespace "pr-123" (.apiErr 409) = .ok true :=
  ⟨by decide, create_namespace_conflict_is_success "pr-123" (by decide)⟩

/-! ## C8 — namespace deletion of a missing namespace -/

/-- Counterexample to C8: deleting the nonexistent namespace `pr-999`
(the cluster answers 404) yields `False` — the same sentinel every
failure path of `delete_namespace` returns, not a success outcome. -/
theorem delete_namespace_notfound_is_false :
    delete_namespace "pr-999" (.apiErr 404) = .ok false ∧
    delete_namespace "pr-999" (.apiErr 404) ≠ .ok true := by
  constructor
  · rfl
  · rw [show delete_namespace "pr-999" (.apiErr 404) = .ok false from rfl]
    simp

/-- C8 as amended: `delete_namespace` never lets an exception escape
(every `ApiException` branch returns a Bool), and on a 404 it returns
`False` — the not-found case is only distinguished from other failures
by its warning-level log, not by the returned value. -/
theorem delete_namespace_never_raises (name : String) (outcome : NsOutcome) :
    (∃ b, delete_namespace name outcome = .ok b) ∧
    delete_namespace name (.apiErr 404) = .ok false := by
  constructor
  · unfold delete_namespace
    by_cases h : validate_k8s_name name
    · cases outcome <;> simp [h]
    · simp [h]
  · unfold delete_namespace
    by_cases h : validate_k8s_name name <;> simp [h]

/-! ## C10 — namespace_exists can re-raise -/

/-- Counterexample to C10: when the read fails with a non-404 status
(here 500), `namespace_exists` re-raises the `ApiException` instead of
returning a boolean. -/
theorem namespace_exists_raises_on_500 :
    namespace_exists "test-ns" (.apiErr 500) = .error 500 ∧
    ∀ b, namespace_exists "test-ns" (.apiErr 500) ≠ .ok b := by
  constructor
  · rfl
  · intro b
    rw [show namespace_exists "test-ns" (.apiErr 500) = .error 500 from rfl]
    simp

/-- C10 as amended: `namespace_exists` returns `True` when the read
succeeds on a valid name, `False` when the name is invalid or the read
answers 404, and re-raises the `ApiException` for every other
status. -/
theorem namespace_exists_behavior (name : String) (s : Nat) :
    namespace_exists name .ok = .ok (validate_k8s_name name) ∧
    namespace_exists name (.apiErr 404) = .ok false ∧
    (validate_k8s_name name = true → s ≠ 404 →
      namespace_exists name (.apiErr s) = .error s) := by
  refine ⟨?_, ?_, ?_⟩
  · unfold namespace_exists
    by_cases h : validate_k8s_name name <;> simp [h]
  · unfold namespace_exists
    by_cases h : validate_k8s_name name <;> simp [h]
  · intro h hs
    simp [namespace_exists, h, hs]

/-- Witness for the amended C10 at the valid name `test-ns` and
status 500. -/
theorem namespace_exists_behavior_witness :
    namespace_exists "test-ns" .ok = .ok true ∧
    namespace_exists "test-ns" (.apiErr 404) = .ok false ∧
    namespace_exists "test-ns" (.apiErr 500) = .error 500 :=
  ⟨by have h := (namespace_exists_behavior "test-ns" 500).1
      rw [h, show validate_k8s_name "test-ns" = true from by decide]
   , (namespace_exists_behavior "test-ns" 500).2.1
   , (namespace_exists_behavior "test-ns" 500).2.2 (by decide) (by decide)⟩

/-! ## C9 — create_deployment validates before any side effect -/

/-- An image accepted by the validator necessarily carries a tag
separator. -/
theorem validate_image_name_has_colon (image : String)
    (h : validate_image_name image = true) : image.toList.contains ':' = true := by
  by_cases hc : image.toList.contains ':' = true
  · exact hc
  · exfalso
    have hc' : image.toList.contains ':' = false := by
      cases hcc : image.toList.contains ':'
      · rfl
      · exact absurd hcc hc
    unfold validate_image_name at h
    by_cases he : image.toList = []
    · rw [if_pos he] at h
      exact Bool.false_ne_true h
    · rw [if_neg he, hc'] at h
      simp at h

/-- A port outside `1..65535` is rejected by the port validator. -/
theorem validate_port_out_of_range (port : Int)
    (h : ¬(1 ≤ port ∧ port ≤ 65535)) : validate_port port = false := by
  unfold validate_port
  rcases not_and_or.mp h with h1 | h2
  · simp [h1]
  · simp [h2]

/-- C9: whenever any of the four input validators rejects — in
particular for a name or namespace failing the k8s name rules, an
image without a `:` tag separator or failing the image format check,
or a port outside `1..65535` — `create_deployment` returns `False`
with an empty event trace: no template rendering, no cluster call, and
no retry. -/
theorem create_deployment_validation_first (env : Env) (name ns image : String)
    (port : Int) (rendered : RenderOutcome)
    (h : validate_k8s_name name = false ∨ validate_k8s_name ns = false ∨
         validate_image_name image = false ∨ ¬(1 ≤ port ∧ port ≤ 65535) ∨
         image.toList.contains ':' = false) :
    create_deployment env name ns image port rendered = (.ok false, []) := by
  by_cases h1 : validate_k8s_name name
  · by_cases h2 : validate_k8s_name ns
    · by_cases h3 : validate_image_name image
      · by_cases h4 : validate_port port
        · exfalso
          rcases h with h' | h' | h' | h' | h'
          · exact absurd h1 (by simp [h'])
          · exact absurd h2 (by simp [h'])
          · exact absurd h3 (by simp [h'])
          · exact absurd h4 (by simp [validate_port_out_of_range port h'])
          · have := validate_image_name_has_colon image h3
            rw [h'] at this
            exact Bool.false_ne_true this
        · simp [create_deployment, h1, h2, h3, h4]
      · simp [create_deployment, h1, h2, h3]
    · simp [create_deployment, h1, h2]
  · simp [create_deployment, h1]

/-- Witness for C9: a tagless image, an out-of-range port, and an
invalid name each short-circuit at a concrete call. -/
theorem create_deployment_validation_first_witness :
    create_deployment envNull "test-app" "test-ns" "nginx" 80 (.ok "doc")
      = (.ok false, []) ∧
    create_deployment envNull "test-app" "test-ns" "nginx:latest" 0 (.ok "doc")
      = (.ok false, []) ∧
    create_deployment envNull "Bad_Name" "test-ns" "nginx:latest" 80 (.ok "doc")
      = (.ok false, []) :=
  ⟨create_deployment_validation_first envNull "test-app" "test-ns" "nginx" 80 (.ok "doc")
     (Or.inr (Or.inr (Or.inr (Or.inr (by decide))))),
   create_deployment_validation_first envNull "test-app" "test-ns" "nginx:latest" 0 (.ok "doc")
     (Or.inr (Or.inr (Or.inr (Or.inl (by decide))))),
   create_deployment_validation_first envNull "Bad_Name" "test-ns" "nginx:latest" 80 (.ok "doc")
     (Or.inl (by decide))⟩

/-! ## C2 — custom-resource conflict: one fetch, token copied -/

/-- C2: when a custom-resource apply hits a 409 on its create attempt
and the prior-state fetch succeeds, the call trace is exactly
create, then one fetch, then one update whose body carries the
`resourceVersion` returned by that fetch. -/
theorem traefik_conflict_one_fetch_token (env : Env) (m : Manifest) (ns g v rv : String)
    (hsplit : splitApiVersion m.apiVersionD = some (g, v))
    (hmeta : m.metadata.isSome = true)
    (hconflict :
      env.create_namespaced_custom_object g v ns (pluralOf m.kindD) m = .apiErr 409)
    (hget :
      env.get_namespaced_custom_object g v ns (pluralOf m.kindD) m.nameD = .ok rv) :
    (apply_traefik_crd env m ns).2 =
      [.createCustomObject g v ns (pluralOf m.kindD) m,
       .getCustomObject g v ns (pluralOf m.kindD) m.nameD,
       .patchCustomObject g v ns (pluralOf m.kindD) m.nameD (setResourceVersion m rv)] ∧
    (setResourceVersion m rv).metadata.bind (fun md => md.resourceVersion) = some rv := by
  obtain ⟨md, hmd⟩ := Option.isSome_iff_exists.mp hmeta
  constructor
  · unfold apply_traefik_crd
    rw [hsplit]
    simp only [hconflict, if_true]
    unfold update_traefik_crd
    rw [hget, hmd]
    cases hpo : env.patch_namespaced_custom_object g v ns (pluralOf m.kindD) m.nameD
        (setResourceVersion m rv) <;> simp [hpo]
  · unfold setResourceVersion
    rw [hmd]
    simp

/-- A fixture environment whose create attempts answer 409 and whose
fetch returns the token `"42"`. -/
def envConflict : Env where
  parse := fun _ => some mTraefikMw
  create_from_dict := fun _ => .apiErr 409
  patch_namespaced_deployment := fun _ _ _ => .ok
  patch_namespaced_service := fun _ _ _ => .ok
  patch_namespaced_ingress := fun _ _ _ => .ok
  create_namespaced_custom_object := fun _ _ _ _ _ => .apiErr 409
  get_namespaced_custom_object := fun _ _ _ _ _ => .ok "42"
  patch_namespaced_custom_object := fun _ _ _ _ _ _ => .ok

/-- Witness for C2 at the concrete middleware manifest. -/
theorem traefik_conflict_one_fetch_token_witness :
    (apply_traefik_crd envConflict mTraefikMw "test-ns").2 =
      [.createCustomObject "traefik.io" "v1alpha1" "test-ns" "middlewares" mTraefikMw,
       .getCustomObject "traefik.io" "v1alpha1" "test-ns" "middlewares" "test-middleware",
       .patchCustomObject "traefik.io" "v1alpha1" "test-ns" "middlewares" "test-middleware"
         (setResourceVersion mTraefikMw "42")] ∧
    (setResourceVersion mTraefikMw "42").metadata.bind (fun md => md.resourceVersion)
      = some "42" :=
  traefik_conflict_one_fetch_token envConflict mTraefikMw "test-ns"
    "traefik.io" "v1alpha1" "42" (by decide) (by decide) rfl rfl

/-! ## C6 — routing of the middleware manifest -/

/-- Counterexample to C6: a middleware manifest with apiVersion
`custom.io/v1alpha1` does NOT route through the custom-resource path —
the allow-list matches only the substrings `traefik.io` and
`traefik.containo.us` — so the apply issues a standard
`create_from_dict` call and never the custom-object creation. -/
theorem middleware_custom_io_routes_standard :
    is_traefik_crd (setNamespace mCustomIo "test-ns") = false ∧
    (apply_yaml (envOf emptyCluster (fun _ => some mCustomIo)) "doc" "test-ns").2 =
      [.createFromDict (setNamespace mCustomIo "test-ns")] := by
  constructor
  · rfl
  · rfl

/-- C6 as amended: a middleware manifest with apiVersion
`traefik.io/v1alpha1` routes through the custom-resource path, and the
first (and only creation) call is the custom-object creation with
group `traefik.io`, version `v1alpha1` and plural `middlewares`
(the kind lowercased with an appended "s"). -/
theorem middleware_traefik_io_routes_custom (env : Env) (yaml ns : String)
    (hp : env.parse yaml = some mTraefikMw) :
    is_traefik_crd (setNamespace mTraefikMw ns) = true ∧
    pluralOf (setNamespace mTraefikMw ns).kindD = "middlewares" ∧
    (apply_yaml env yaml ns).2.head? =
      some (.createCustomObject "traefik.io" "v1alpha1" ns "middlewares"
        (setNamespace mTraefikMw ns)) := by
  have htr : is_traefik_crd (setNamespace mTraefikMw ns) = true := by
    rw [is_traefik_crd_setNamespace]; decide
  have hsplit : splitApiVersion (setNamespace mTraefikMw ns).apiVersionD
      = some ("traefik.io", "v1alpha1") := by
    rw [setNamespace_apiVersionD]; decide
  have hplural : pluralOf (setNamespace mTraefikMw ns).kindD = "middlewares" := by
    rw [setNamespace_kindD]; decide
  refine ⟨htr, hplural, ?_⟩
  unfold apply_yaml parse_yaml_manifest
  rw [hp]
  dsimp only
  rw [htr, if_pos rfl]
  unfold apply_traefik_crd
  rw [hsplit]
  dsimp only
  rw [hplural]
  cases hco : env.create_namespaced_custom_object "traefik.io" "v1alpha1" ns
      "middlewares" (setNamespace mTraefikMw ns) with
  | ok => simp [hco]
  | apiErr s => by_cases h9 : s = 409 <;> simp [hco, h9]
  | otherErr => simp [hco]

/-- Witness for the amended C6: at the empty cluster, applying the
`traefik.io` middleware issues exactly the custom-object creation. -/
theorem middleware_traefik_io_routes_custom_witness :
    (apply_yaml (envOf emptyCluster (fun _ => some mTraefikMw)) "doc" "test-ns").2.head? =
      some (.createCustomObject "traefik.io" "v1alpha1" "test-ns" "middlewares"
        (setNamespace mTraefikMw "test-ns")) :=
  (middleware_traefik_io_routes_custom
    (envOf emptyCluster (fun _ => some mTraefikMw)) "doc" "test-ns" rfl).2.2

/-! ## C4 — every body sent carries the forced namespace -/

/-- Every body sent by the standard update dispatch is the manifest it
was given. -/
theorem update_standard_resource_body (env : Env) (m : Manifest)
    (ns kind name : String) (c : Call) (b : Manifest)
    (hc : c ∈ (update_standard_resource env m ns kind name).2)
    (hb : c.body = some b) : b = m := by
  unfold update_standard_resource at hc
  by_cases hd : kind = "Deployment"
  · rw [if_pos hd] at hc
    cases ho : env.patch_namespaced_deployment name ns m <;>
      rw [ho] at hc <;> simp at hc <;> subst hc <;>
      simp [Call.body] at hb <;> exact hb.symm
  · rw [if_neg hd] at hc
    by_cases hs : kind = "Service"
    · rw [if_pos hs] at hc
      cases ho : env.patch_namespaced_service name ns m <;>
        rw [ho] at hc <;> simp at hc <;> subst hc <;>
        simp [Call.body] at hb <;> exact hb.symm
    · rw [if_neg hs] at hc
      by_cases hi : kind = "Ingress"
      · rw [if_pos hi] at hc
        cases ho : env.patch_namespaced_ingress name ns m <;>
          rw [ho] at hc <;> simp at hc <;> subst hc <;>
          simp [Call.body] at hb <;> exact hb.symm
      · rw [if_neg hi] at hc
        simp at hc

/-- Every body sent by the custom-resource update routine is the given
manifest with some version token injected. -/
theorem update_traefik_crd_body (env : Env) (g v ns plural name : String)
    (m : Manifest) (c : Call) (b : Manifest)
    (hc : c ∈ (update_traefik_crd env g v ns plural name m).2)
    (hb : c.body = some b) : ∃ rv, b = setResourceVersion m rv := by
  unfold update_traefik_crd at hc
  cases hg : env.get_namespaced_custom_object g v ns plural name with
  | err =>
    rw [hg] at hc
    simp at hc
    subst hc
    simp [Call.body] at hb
  | ok rv =>
    rw [hg] at hc
    dsimp only at hc
    cases hm : m.metadata with
    | none =>
      rw [hm] at hc
      simp at hc
      subst hc
      simp [Call.body] at hb
    | some md =>
      rw [hm] at hc
      dsimp only at hc
      cases hp : env.patch_namespaced_custom_object g v ns plural name
          (setResourceVersion m rv) <;>
        rw [hp] at hc <;> simp at hc <;>
        rcases hc with hc | hc <;> subst hc <;> simp [Call.body] at hb
      · exact ⟨rv, hb.symm⟩
      · exact ⟨rv, hb.symm⟩

/-- Every body sent by a custom-resource apply is the parsed manifest,
possibly with a version token injected. -/
theorem apply_traefik_crd_body (env : Env) (m : Manifest) (ns : String)
    (c : Call) (b : Manifest)
    (hc : c ∈ (apply_traefik_crd env m ns).2)
    (hb : c.body = some b) : b = m ∨ ∃ rv, b = setResourceVersion m rv := by
  unfold apply_traefik_crd at hc
  cases hs : splitApiVersion m.apiVersionD with
  | none =>
    rw [hs] at hc
    simp at hc
  | some gv =>
    obtain ⟨g, v⟩ := gv
    rw [hs] at hc
    dsimp only at hc
    cases hco : env.create_namespaced_custom_object g v ns
        (pluralOf m.kindD) m with
    | ok =>
      rw [hco] at hc
      simp at hc
      subst hc
      simp [Call.body] at hb
      exact Or.inl hb.symm
    | apiErr s =>
      rw [hco] at hc
      dsimp only at hc
      by_cases h9 : s = 409
      · rw [if_pos h9] at hc
        simp at hc
        rcases hc with hc | hc
        · subst hc
          simp [Call.body] at hb
          exact Or.inl hb.symm
        · exact Or.inr (update_traefik_crd_body env g v ns
            (pluralOf m.kindD) m.nameD m c b hc hb)
      · rw [if_neg h9] at hc
        simp at hc
        subst hc
        simp [Call.body] at hb
        exact Or.inl hb.symm
    | otherErr =>
      rw [hco] at hc
      simp at hc
      subst hc
      simp [Call.body] at hb
      exact Or.inl hb.symm

/-- Every body sent by a standard-resource apply is the parsed
manifest. -/
theorem apply_standard_resource_body (env : Env) (m : Manifest) (ns : String)
    (c : Call) (b : Manifest)
    (hc : c ∈ (apply_standard_resource env m ns).2)
    (hb : c.body = some b) : b = m := by
  unfold apply_standard_resource at hc
  cases hco : env.create_from_dict m with
  | ok =>
    rw [hco] at hc
    simp at hc
    subst hc
    simp [Call.body] at hb
    exact hb.symm
  | failCreate msg =>
    rw [hco] at hc
    dsimp only at hc
    by_cases hcf : (containsSub msg "AlreadyExists" || containsSub msg "Conflict") = true
    · rw [if_pos hcf] at hc
      simp at hc
      rcases hc with hc | hc
      · subst hc
        simp [Call.body] at hb
        exact hb.symm
      · exact update_standard_resource_body env m ns m.kindD m.nameD c b hc hb
    · rw [if_neg hcf] at hc
      simp at hc
      subst hc
      simp [Call.body] at hb
      exact hb.symm
  | apiErr s =>
    rw [hco] at hc
    dsimp only at hc
    by_cases h9 : s = 409
    · rw [if_pos h9] at hc
      simp at hc
      rcases hc with hc | hc
      · subst hc
        simp [Call.body] at hb
        exact hb.symm
      · exact update_standard_resource_body env m ns m.kindD m.nameD c b hc hb
    · rw [if_neg h9] at hc
      simp at hc
      subst hc
      simp [Call.body] at hb
      exact hb.symm
  | otherErr =>
    rw [hco] at hc
    simp at hc
    subst hc
    simp [Call.body] at hb
    exact hb.symm

/-- C4: every manifest body that `_apply_yaml` sends to the cluster has
its `metadata.namespace` equal to the caller-supplied target namespace,
whatever namespace (or absence of metadata) the parsed document had. -/
theorem apply_yaml_forces_namespace (env : Env) (yaml ns : String)
    (c : Call) (b : Manifest)
    (hc : c ∈ (apply_yaml env yaml ns).2)
    (hb : c.body = some b) : b.nspaceOf = some ns := by
  unfold apply_yaml parse_yaml_manifest at hc
  cases hp : env.parse yaml with
  | none =>
    rw [hp] at hc
    simp at hc
  | some m0 =>
    rw [hp] at hc
    dsimp only at hc
    by_cases ht : is_traefik_crd (setNamespace m0 ns) = true
    · rw [if_pos ht] at hc
      rcases apply_traefik_crd_body env (setNamespace m0 ns) ns c b hc hb with
        h | ⟨rv, h⟩
      · rw [h, setNamespace_nspaceOf]
      · rw [h, setResourceVersion_nspaceOf, setNamespace_nspaceOf]
    · rw [if_neg ht] at hc
      rw [apply_standard_resource_body env (setNamespace m0 ns) ns c b hc hb,
        setNamespace_nspaceOf]

/-- Witness for C4: in the concrete conflicting custom-resource apply,
the patched body carries the forced namespace `test-ns` even though the
parsed manifest had none. -/
theorem apply_yaml_forces_namespace_witness :
    (Call.patchCustomObject "traefik.io" "v1alpha1" "test-ns" "middlewares"
        "test-middleware" (setResourceVersion (setNamespace mTraefikMw "test-ns") "42"))
      ∈ (apply_yaml envConflict "doc" "test-ns").2 ∧
    (setResourceVersion (setNamespace mTraefikMw "test-ns") "42").nspaceOf
      = some "test-ns" :=
  ⟨by decide,
   apply_yaml_forces_namespace envConflict "doc" "test-ns"
     (Call.patchCustomObject "traefik.io" "v1alpha1" "test-ns" "middlewares"
       "test-middleware" (setResourceVersion (setNamespace mTraefikMw "test-ns") "42"))
     (setResourceVersion (setNamespace mTraefikMw "test-ns") "42")
     (by decide) rfl⟩

/-! ## C3 — conflicts convert to one update; other failures terminal -/

/-- The standard update dispatch issues either nothing or exactly one
kind-specific patch call. -/
theorem update_standard_resource_shape (env : Env) (m : Manifest)
    (ns kind name : String) :
    (update_standard_resource env m ns kind name).2 = [] ∨
    (update_standard_resource env m ns kind name).2 = [.patchDeployment name ns m] ∨
    (update_standard_resource env m ns kind name).2 = [.patchService name ns m] ∨
    (update_standard_resource env m ns kind name).2 = [.patchIngress name ns m] := by
  unfold update_standard_resource
  by_cases hd : kind = "Deployment"
  · rw [if_pos hd]
    cases env.patch_namespaced_deployment name ns m <;> simp
  · rw [if_neg hd]
    by_cases hs : kind = "Service"
    · rw [if_pos hs]
      cases env.patch_namespaced_service name ns m <;> simp
    · rw [if_neg hs]
      by_cases hi : kind = "Ingress"
      · rw [if_pos hi]
        cases env.patch_namespaced_ingress name ns m <;> simp
      · rw [if_neg hi]
        simp

/-- The custom-resource update routine issues the fetch and then at
most one patch carrying a token-injected body. -/
theorem update_traefik_crd_shape (env : Env) (g v ns plural name : String)
    (m : Manifest) :
    (update_traefik_crd env g v ns plural name m).2 =
      [.getCustomObject g v ns plural name] ∨
    ∃ rv, (update_traefik_crd env g v ns plural name m).2 =
      [.getCustomObject g v ns plural name,
       .patchCustomObject g v ns plural name (setResourceVersion m rv)] := by
  unfold update_traefik_crd
  cases hg : env.get_namespaced_custom_object g v ns plural name with
  | err => simp
  | ok rv =>
    cases hm : m.metadata with
    | none => simp
    | some md =>
      dsimp only
      cases hp : env.patch_namespaced_custom_object g v ns plural name
          (setResourceVersion m rv) <;> simp

/-- Call-count bound for a standard-resource apply: at most one create
attempt and at most one update call. -/
theorem apply_standard_resource_counts (env : Env) (m : Manifest) (ns : String) :
    ((apply_standard_resource env m ns).2.filter Call.isCreate).length ≤ 1 ∧
    ((apply_standard_resource env m ns).2.filter Call.isUpdate).length ≤ 1 := by
  unfold apply_standard_resource
  have hshape := update_standard_resource_shape env m ns m.kindD m.nameD
  cases hco : env.create_from_dict m with
  | ok => simp [Call.isCreate, Call.isUpdate]
  | failCreate msg =>
    dsimp only
    by_cases hcf : (containsSub msg "AlreadyExists" || containsSub msg "Conflict") = true
    · rw [if_pos hcf]
      rcases hshape with h | h | h | h <;>
        simp [h, Call.isCreate, Call.isUpdate]
    · rw [if_neg hcf]
      simp [Call.isCreate, Call.isUpdate]
  | apiErr s =>
    dsimp only
    by_cases h9 : s = 409
    · rw [if_pos h9]
      rcases hshape with h | h | h | h <;>
        simp [h, Call.isCreate, Call.isUpdate]
    · rw [if_neg h9]
      simp [Call.isCreate, Call.isUpdate]
  | otherErr => simp [Call.isCreate, Call.isUpdate]

/-- Call-count bound for a custom-resource apply: at most one create
attempt and at most one update call. -/
theorem apply_traefik_crd_counts (env : Env) (m : Manifest) (ns : String) :
    ((apply_traefik_crd env m ns).2.filter Call.isCreate).length ≤ 1 ∧
    ((apply_traefik_crd env m ns).2.filter Call.isUpdate).length ≤ 1 := by
  unfold apply_traefik_crd
  cases hs : splitApiVersion m.apiVersionD with
  | none => simp
  | some gv =>
    obtain ⟨g, v⟩ := gv
    dsimp only
    have hshape := update_traefik_crd_shape env g v ns (pluralOf m.kindD) m.nameD m
    cases hco : env.create_namespaced_custom_object g v ns (pluralOf m.kindD) m with
    | ok => simp [Call.isCreate, Call.isUpdate]
    | apiErr s =>
      dsimp only
      by_cases h9 : s = 409
      · rw [if_pos h9]
        rcases hshape with h | ⟨rv, h⟩ <;>
          simp [h, Call.isCreate, Call.isUpdate, Call.isGet]
      · rw [if_neg h9]
        simp [Call.isCreate, Call.isUpdate]
    | otherErr => simp [Call.isCreate, Call.isUpdate]

/-- C3: per apply call there is at most one create attempt and at most
one update call (no retry loop); a parse failure makes no call at all;
on the standard path a conflict-class create failure (a
`FailToCreateError` whose message mentions AlreadyExists/Conflict, or
a 409 `ApiException`) hands over to exactly one invocation of the
update dispatch whose result is final, while any other create failure
is terminal with no update attempt; and likewise on the custom path
for a 409 versus any other failure. -/
theorem apply_conflict_once_other_failures_terminal (env : Env) (yaml ns : String) :
    (((apply_yaml env yaml ns).2.filter Call.isCreate).length ≤ 1 ∧
     ((apply_yaml env yaml ns).2.filter Call.isUpdate).length ≤ 1) ∧
    (env.parse yaml = none → apply_yaml env yaml ns = (false, [])) ∧
    (∀ m, parse_yaml_manifest env yaml ns = some m → is_traefik_crd m = false →
      ((env.create_from_dict m = .apiErr 409 →
        apply_yaml env yaml ns =
          ((update_standard_resource env m ns m.kindD m.nameD).1,
           .createFromDict m :: (update_standard_resource env m ns m.kindD m.nameD).2)) ∧
       (∀ msg, env.create_from_dict m = .failCreate msg →
        (containsSub msg "AlreadyExists" || containsSub msg "Conflict") = true →
        apply_yaml env yaml ns =
          ((update_standard_resource env m ns m.kindD m.nameD).1,
           .createFromDict m :: (update_standard_resource env m ns m.kindD m.nameD).2)) ∧
       (∀ msg, env.create_from_dict m = .failCreate msg →
        (containsSub msg "AlreadyExists" || containsSub msg "Conflict") = false →
        apply_yaml env yaml ns = (false, [.createFromDict m])) ∧
       (∀ s, env.create_from_dict m = .apiErr s → s ≠ 409 →
        apply_yaml env yaml ns = (false, [.createFromDict m])) ∧
       (env.create_from_dict m = .otherErr →
        apply_yaml env yaml ns = (false, [.createFromDict m])))) ∧
    (∀ m g v, parse_yaml_manifest env yaml ns = some m → is_traefik_crd m = true →
      splitApiVersion m.apiVersionD = some (g, v) →
      ((env.create_namespaced_custom_object g v ns (pluralOf m.kindD) m = .apiErr 409 →
        apply_yaml env yaml ns =
          ((update_traefik_crd env g v ns (pluralOf m.kindD) m.nameD m).1,
           .createCustomObject g v ns (pluralOf m.kindD) m ::
             (update_traefik_crd env g v ns (pluralOf m.kindD) m.nameD m).2)) ∧
       (∀ s, env.create_namespaced_custom_object g v ns (pluralOf m.kindD) m
          = .apiErr s → s ≠ 409 →
        apply_yaml env yaml ns =
          (false, [.createCustomObject g v ns (pluralOf m.kindD) m])) ∧
       (env.create_namespaced_custom_object g v ns (pluralOf m.kindD) m = .otherErr →
        apply_yaml env yaml ns =
          (false, [.createCustomObject g v ns (pluralOf m.kindD) m])))) := by
  refine ⟨?_, ?_, ?_, ?_⟩
  · unfold apply_yaml parse_yaml_manifest
    cases hp : env.parse yaml with
    | none => simp
    | some m0 =>
      dsimp only
      by_cases ht : is_traefik_crd (setNamespace m0 ns) = true
      · rw [if_pos ht]
        exact apply_traefik_crd_counts env (setNamespace m0 ns) ns
      · rw [if_neg ht]
        exact apply_standard_resource_counts env (setNamespace m0 ns) ns
  · intro hp
    unfold apply_yaml parse_yaml_manifest
    rw [hp]
  · intro m hp ht
    unfold apply_yaml
    rw [hp]
    dsimp only
    rw [ht]
    simp only [Bool.false_eq_true, if_false]
    unfold apply_standard_resource
    refine ⟨?_, ?_, ?_, ?_, ?_⟩
    · intro hco
      rw [hco]
      dsimp only
      rw [if_pos rfl]
    · intro msg hco hcf
      rw [hco]
      dsimp only
      rw [if_pos hcf]
    · intro msg hco hcf
      rw [hco]
      dsimp only
      rw [hcf]
      simp
    · intro s hco h9
      rw [hco]
      dsimp only
      rw [if_neg h9]
    · intro hco
      rw [hco]
  · intro m g v hp ht hs
    unfold apply_yaml
    rw [hp]
    dsimp only
    rw [ht]
    simp only [if_true]
    unfold apply_traefik_crd
    rw [hs]
    dsimp only
    refine ⟨?_, ?_, ?_⟩
    · intro hco
      rw [hco]
      dsimp only
      rw [if_pos rfl]
    · intro s hco h9
      rw [hco]
      dsimp only
      rw [if_neg h9]
    · intro hco
      rw [hco]

/-- Witness for C3: in the concrete conflicting environment, the apply
issues one create attempt and one update call, and equals the conflict
decomposition. -/
theorem apply_conflict_once_witness :
    ((apply_yaml envConflict "doc" "test-ns").2.filter Call.isCreate).length ≤ 1 ∧
    apply_yaml envConflict "doc" "test-ns" =
      ((update_traefik_crd envConflict "traefik.io" "v1alpha1" "test-ns" "middlewares"
          "test-middleware" (setNamespace mTraefikMw "test-ns")).1,
       .createCustomObject "traefik.io" "v1alpha1" "test-ns" "middlewares"
          (setNamespace mTraefikMw "test-ns") ::
         (update_traefik_crd envConflict "traefik.io" "v1alpha1" "test-ns" "middlewares"
          "test-middleware" (setNamespace mTraefikMw "test-ns")).2) :=
  ⟨(apply_conflict_once_other_failures_terminal envConflict "doc" "test-ns").1.1,
   by
    have h := ((apply_conflict_once_other_failures_terminal envConflict "doc"
        "test-ns").2.2.2 (setNamespace mTraefikMw "test-ns") "traefik.io" "v1alpha1"
        rfl (by decide) (by decide)).1 rfl
    rw [show (setNamespace mTraefikMw "test-ns").nameD = "test-middleware" from by decide,
      show pluralOf (setNamespace mTraefikMw "test-ns").kindD = "middlewares" from by decide]
      at h
    exact h⟩

/-! ## C5 — applying twice converges (idempotent create-or-update) -/

theorem execTrace_nil (c : Cluster) : execTrace c [] = c := rfl

theorem execTrace_cons (c : Cluster) (x : Call) (xs : List Call) :
    execTrace c (x :: xs) = execTrace (execCall c x) xs := rfl

theorem keyStd_of_nspace (m' : Manifest) (ns : String)
    (hns : m'.nspaceOf = some ns) : keyStd m' = (m'.kindD, ns, m'.nameD) := by
  unfold keyStd
  rw [hns]
  rfl

theorem cluster_set_same (c : Cluster) (k : ResKey) (v : Option Stored) :
    c.set k v k = v := by
  unfold Cluster.set
  rw [if_pos rfl]

/-- Against a cluster where the resource is live, the standard update
dispatch on a supported kind succeeds and its state effect replaces the
stored body with the patched manifest. -/
theorem standard_conflict_update (parse : String → Option Manifest)
    (c1 : Cluster) (m' : Manifest) (ns : String) (st : Stored)
    (hk3 : m'.kindD = "Deployment" ∨ m'.kindD = "Service" ∨ m'.kindD = "Ingress")
    (hns : m'.nspaceOf = some ns)
    (hc1key : c1 (keyStd m') = some st) :
    (update_standard_resource (envOf c1 parse) m' ns m'.kindD m'.nameD).1 = true ∧
    execTrace c1 (update_standard_resource (envOf c1 parse) m' ns m'.kindD m'.nameD).2
      = c1.set (keyStd m') (some ⟨m', st.rv⟩) := by
  have hkey : (m'.kindD, ns, m'.nameD) = keyStd m' := (keyStd_of_nspace m' ns hns).symm
  rcases hk3 with hk | hk | hk
  · have hpatch : (envOf c1 parse).patch_namespaced_deployment m'.nameD ns m' = .ok := by
      simp only [envOf]
      rw [show ("Deployment", ns, m'.nameD) = keyStd m' from by rw [← hk]; exact hkey,
        hc1key]
      rfl
    unfold update_standard_resource
    rw [if_pos hk, hpatch]
    refine ⟨rfl, ?_⟩
    rw [execTrace_cons, execTrace_nil]
    unfold execCall
    dsimp only
    rw [show ("Deployment", ns, m'.nameD) = keyStd m' from by rw [← hk]; exact hkey,
      hc1key]
  · have hpatch : (envOf c1 parse).patch_namespaced_service m'.nameD ns m' = .ok := by
      simp only [envOf]
      rw [show ("Service", ns, m'.nameD) = keyStd m' from by rw [← hk]; exact hkey,
        hc1key]
      rfl
    have hne : m'.kindD ≠ "Deployment" := by rw [hk]; decide
    unfold update_standard_resource
    rw [if_neg hne, if_pos hk, hpatch]
    refine ⟨rfl, ?_⟩
    rw [execTrace_cons, execTrace_nil]
    unfold execCall
    dsimp only
    rw [show ("Service", ns, m'.nameD) = keyStd m' from by rw [← hk]; exact hkey,
      hc1key]
  · have hpatch : (envOf c1 parse).patch_namespaced_ingress m'.nameD ns m' = .ok := by
      simp only [envOf]
      rw [show ("Ingress", ns, m'.nameD) = keyStd m' from by rw [← hk]; exact hkey,
        hc1key]
      rfl
    have hne : m'.kindD ≠ "Deployment" := by rw [hk]; decide
    have hne2 : m'.kindD ≠ "Service" := by rw [hk]; decide
    unfold update_standard_resource
    rw [if_neg hne, if_neg hne2, if_pos hk, hpatch]
    refine ⟨rfl, ?_⟩
    rw [execTrace_cons, execTrace_nil]
    unfold execCall
    dsimp only
    rw [show ("Ingress", ns, m'.nameD) = keyStd m' from by rw [← hk]; exact hkey,
      hc1key]

/-- C5: for a manifest the system supports — a standard resource of a
kind in the update dispatch table, or an allow-listed custom
resource — applying the same document to the same namespace twice
succeeds both times (the second call resolves its conflict via update)
and leaves the live object's spec equal to the manifest's spec. -/
theorem apply_twice_idempotent (parse : String → Option Manifest)
    (yaml ns : String) (c : Cluster) (m : Manifest)
    (hp : parse yaml = some m) :
    (is_traefik_crd (setNamespace m ns) = false →
      ((setNamespace m ns).kindD = "Deployment" ∨
        (setNamespace m ns).kindD = "Service" ∨
        (setNamespace m ns).kindD = "Ingress") →
      c (keyStd (setNamespace m ns)) = none →
      ((applyStep parse c yaml ns).1 = true ∧
       (applyStep parse (applyStep parse c yaml ns).2 yaml ns).1 = true ∧
       ((applyStep parse (applyStep parse c yaml ns).2 yaml ns).2
           (keyStd (setNamespace m ns))).map (fun st => st.body.spec)
         = some m.spec)) ∧
    (is_traefik_crd (setNamespace m ns) = true →
      ∀ g v, splitApiVersion (setNamespace m ns).apiVersionD = some (g, v) →
      c (keyCustom (pluralOf (setNamespace m ns).kindD) ns
          (setNamespace m ns).nameD) = none →
      ((applyStep parse c yaml ns).1 = true ∧
       (applyStep parse (applyStep parse c yaml ns).2 yaml ns).1 = true ∧
       ((applyStep parse (applyStep parse c yaml ns).2 yaml ns).2
           (keyCustom (pluralOf (setNamespace m ns).kindD) ns
             (setNamespace m ns).nameD)).map (fun st => st.body.spec)
         = some m.spec)) := by
  have hns : (setNamespace m ns).nspaceOf = some ns := setNamespace_nspaceOf m ns
  constructor
  · intro htr hk3 habs
    set m' := setNamespace m ns with hm'
    -- first apply: the create succeeds
    have hcr1 : (envOf c parse).create_from_dict m' = .ok := by
      simp only [envOf]
      rw [habs]
      rfl
    have h1 : apply_yaml (envOf c parse) yaml ns = (true, [.createFromDict m']) := by
      unfold apply_yaml parse_yaml_manifest
      rw [show (envOf c parse).parse = parse from rfl, hp]
      dsimp only
      rw [htr]
      simp only [Bool.false_eq_true, if_false]
      unfold apply_standard_resource
      rw [hcr1]
    have hstep1 : applyStep parse c yaml ns
        = (true, c.set (keyStd m') (some ⟨m', "1"⟩)) := by
      unfold applyStep
      rw [h1]
      dsimp only
      rw [execTrace_cons, execTrace_nil]
      unfold execCall
      dsimp only
      rw [habs]
      rfl
    -- second apply: the create conflicts and the patch succeeds
    have hc1key : c.set (keyStd m') (some ⟨m', "1"⟩) (keyStd m')
        = some ⟨m', "1"⟩ := cluster_set_same c _ _
    have hcr2 : (envOf (c.set (keyStd m') (some ⟨m', "1"⟩)) parse).create_from_dict m'
        = .apiErr 409 := by
      simp only [envOf]
      rw [hc1key]
      rfl
    have hupd := standard_conflict_update parse (c.set (keyStd m') (some ⟨m', "1"⟩))
      m' ns ⟨m', "1"⟩ hk3 hns hc1key
    have h2 : apply_yaml (envOf (c.set (keyStd m') (some ⟨m', "1"⟩)) parse) yaml ns
        = ((update_standard_resource (envOf (c.set (keyStd m') (some ⟨m', "1"⟩)) parse)
              m' ns m'.kindD m'.nameD).1,
           .createFromDict m' ::
             (update_standard_resource (envOf (c.set (keyStd m') (some ⟨m', "1"⟩)) parse)
              m' ns m'.kindD m'.nameD).2) := by
      unfold apply_yaml parse_yaml_manifest
      rw [show (envOf (c.set (keyStd m') (some ⟨m', "1"⟩)) parse).parse = parse from rfl,
        hp]
      dsimp only
      rw [htr]
      simp only [Bool.false_eq_true, if_false]
      unfold apply_standard_resource
      rw [hcr2]
      dsimp only
      rw [if_pos rfl]
    have hstep2 : applyStep parse (c.set (keyStd m') (some ⟨m', "1"⟩)) yaml ns
        = ((update_standard_resource (envOf (c.set (keyStd m') (some ⟨m', "1"⟩)) parse)
              m' ns m'.kindD m'.nameD).1,
           (c.set (keyStd m') (some ⟨m', "1"⟩)).set (keyStd m') (some ⟨m', "1"⟩)) := by
      unfold applyStep
      rw [h2]
      dsimp only
      rw [execTrace_cons]
      rw [show execCall (c.set (keyStd m') (some ⟨m', "1"⟩)) (.createFromDict m')
          = c.set (keyStd m') (some ⟨m', "1"⟩) from by
        unfold execCall
        dsimp only
        rw [hc1key]
        rfl]
      rw [hupd.2]
    refine ⟨?_, ?_, ?_⟩
    · rw [hstep1]
    · rw [hstep1]
      dsimp only
      rw [hstep2]
      exact hupd.1
    · rw [hstep1]
      dsimp only
      rw [hstep2]
      dsimp only
      rw [cluster_set_same]
      dsimp only [Option.map]
      rw [hm', setNamespace_spec]
  · intro htr g v hsplit habs
    set m' := setNamespace m ns with hm'
    set plural := pluralOf m'.kindD with hpl
    -- first apply: the custom create succeeds
    have hcr1 : (envOf c parse).create_namespaced_custom_object g v ns plural m'
        = .ok := by
      simp only [envOf]
      rw [habs]
      rfl
    have h1 : apply_yaml (envOf c parse) yaml ns
        = (true, [.createCustomObject g v ns plural m']) := by
      unfold apply_yaml parse_yaml_manifest
      rw [show (envOf c parse).parse = parse from rfl, hp]
      dsimp only
      rw [htr]
      simp only [if_true]
      unfold apply_traefik_crd
      rw [hsplit]
      dsimp only
      rw [← hpl, hcr1]
    have hstep1 : applyStep parse c yaml ns
        = (true, c.set (keyCustom plural ns m'.nameD) (some ⟨m', "1"⟩)) := by
      unfold applyStep
      rw [h1]
      dsimp only
      rw [execTrace_cons, execTrace_nil]
      unfold execCall
      dsimp only
      rw [habs]
      rfl
    -- second apply: conflict, fetch the token "1", patch succeeds
    have hc1key : c.set (keyCustom plural ns m'.nameD) (some ⟨m', "1"⟩)
        (keyCustom plural ns m'.nameD) = some ⟨m', "1"⟩ := cluster_set_same c _ _
    have hcr2 : (envOf (c.set (keyCustom plural ns m'.nameD) (some ⟨m', "1"⟩))
          parse).create_namespaced_custom_object g v ns plural m' = .apiErr 409 := by
      simp only [envOf]
      rw [hc1key]
      rfl
    have hget : (envOf (c.set (keyCustom plural ns m'.nameD) (some ⟨m', "1"⟩))
          parse).get_namespaced_custom_object g v ns plural m'.nameD = .ok "1" := by
      simp only [envOf]
      rw [hc1key]
    have hms : m'.metadata.isSome = true := setNamespace_metadata_isSome m ns
    obtain ⟨md, hmd⟩ := Option.isSome_iff_exists.mp hms
    have hpatch : (envOf (c.set (keyCustom plural ns m'.nameD) (some ⟨m', "1"⟩))
          parse).patch_namespaced_custom_object g v ns plural m'.nameD
            (setResourceVersion m' "1") = .ok := by
      simp only [envOf]
      rw [hc1key]
      rfl
    have hupdtr : update_traefik_crd
          (envOf (c.set (keyCustom plural ns m'.nameD) (some ⟨m', "1"⟩)) parse)
          g v ns plural m'.nameD m'
        = (true, [.getCustomObject g v ns plural m'.nameD,
                  .patchCustomObject g v ns plural m'.nameD
                    (setResourceVersion m' "1")]) := by
      unfold update_traefik_crd
      rw [hget]
      dsimp only
      rw [hmd]
      dsimp only
      rw [hpatch]
    have h2 : apply_yaml (envOf (c.set (keyCustom plural ns m'.nameD) (some ⟨m', "1"⟩))
          parse) yaml ns
        = (true, [.createCustomObject g v ns plural m',
                  .getCustomObject g v ns plural m'.nameD,
                  .patchCustomObject g v ns plural m'.nameD
                    (setResourceVersion m' "1")]) := by
      unfold apply_yaml parse_yaml_manifest
      rw [show (envOf (c.set (keyCustom plural ns m'.nameD) (some ⟨m', "1"⟩))
          parse).parse = parse from rfl, hp]
      dsimp only
      rw [htr]
      simp only [if_true]
      unfold apply_traefik_crd
      rw [hsplit]
      dsimp only
      rw [← hpl, hcr2]
      dsimp only
      rw [if_pos rfl, hupdtr]
    have hstep2 : applyStep parse
          (c.set (keyCustom plural ns m'.nameD) (some ⟨m', "1"⟩)) yaml ns
        = (true, (c.set (keyCustom plural ns m'.nameD) (some ⟨m', "1"⟩)).set
            (keyCustom plural ns m'.nameD)
            (some ⟨setResourceVersion m' "1", "1"⟩)) := by
      unfold applyStep
      rw [h2]
      dsimp only
      rw [execTrace_cons]
      rw [show execCall (c.set (keyCustom plural ns m'.nameD) (some ⟨m', "1"⟩))
            (.createCustomObject g v ns plural m')
          = c.set (keyCustom plural ns m'.nameD) (some ⟨m', "1"⟩) from by
        unfold execCall
        dsimp only
        rw [hc1key]
        rfl]
      rw [execTrace_cons]
      rw [show execCall (c.set (keyCustom plural ns m'.nameD) (some ⟨m', "1"⟩))
            (.getCustomObject g v ns plural m'.nameD)
          = c.set (keyCustom plural ns m'.nameD) (some ⟨m', "1"⟩) from rfl]
      rw [execTrace_cons, execTrace_nil]
      unfold execCall
      dsimp only
      rw [hc1key]
    refine ⟨?_, ?_, ?_⟩
    · rw [hstep1]
    · rw [hstep1]
      dsimp only
      rw [hstep2]
    · rw [hstep1]
      dsimp only
      rw [hstep2]
      dsimp only
      rw [cluster_set_same]
      dsimp only [Option.map]
      rw [setResourceVersion_spec, hm', setNamespace_spec]

/-- Witness for C5: applying the concrete deployment manifest twice to
the empty cluster succeeds twice and stores the manifest's spec; the
same holds for the concrete custom middleware manifest. -/
theorem apply_twice_idempotent_witness :
    ((applyStep (fun _ => some mDeploy) emptyCluster "doc" "test-ns").1 = true ∧
     (applyStep (fun _ => some mDeploy)
        (applyStep (fun _ => some mDeploy) emptyCluster "doc" "test-ns").2
        "doc" "test-ns").1 = true ∧
     ((applyStep (fun _ => some mDeploy)
        (applyStep (fun _ => some mDeploy) emptyCluster "doc" "test-ns").2
        "doc" "test-ns").2 (keyStd (setNamespace mDeploy "test-ns"))).map
       (fun st => st.body.spec) = some mDeploy.spec) ∧
    ((applyStep (fun _ => some mTraefikMw) emptyCluster "doc" "test-ns").1 = true ∧
     (applyStep (fun _ => some mTraefikMw)
        (applyStep (fun _ => some mTraefikMw) emptyCluster "doc" "test-ns").2
        "doc" "test-ns").1 = true ∧
     ((applyStep (fun _ => some mTraefikMw)
        (applyStep (fun _ => some mTraefikMw) emptyCluster "doc" "test-ns").2
        "doc" "test-ns").2 (keyCustom "middlewares" "test-ns" "test-middleware")).map
       (fun st => st.body.spec) = some mTraefikMw.spec) :=
  ⟨(apply_twice_idempotent (fun _ => some mDeploy) "doc" "test-ns" emptyCluster
      mDeploy rfl).1 (by decide) (Or.inl (by decide)) rfl,
   by
    have h := (apply_twice_idempotent (fun _ => some mTraefikMw) "doc" "test-ns"
      emptyCluster mTraefikMw rfl).2 (by decide) "traefik.io" "v1alpha1"
      (by decide) rfl
    rw [show pluralOf (setNamespace mTraefikMw "test-ns").kindD = "middlewares"
        from by decide,
      show (setNamespace mTraefikMw "test-ns").nameD = "test-middleware"
        from by decide] at h
    exact h⟩

end EphemeralEnv
